/-
Verification of the twoliter build orchestrator's core against its design
specification.

The Rust sources are shallowly embedded: pure functions become Lean
functions, process-global state (the cleanup registry) becomes explicit
state passing, fallible code returns `Except`, and the effects that matter
to the properties (warnings printed, sandbox invocations, `process::exit`
calls) are reified as data in the result of each embedded function.
-/
import Mathlib

namespace Twoliter

/-! ## Identifier validation (twoliter/src/project/image.rs) -/

/-- Embeds `is_valid_id_char` from `twoliter/src/project/image.rs`:
alphanumeric ASCII, underscore and hyphen are the only valid identifier
characters. -/
def is_valid_id_char (c : Char) : Bool :=
  (('a' ≤ c && c ≤ 'z') || ('A' ≤ c && c ≤ 'Z') || ('0' ≤ c && c ≤ '9')
    || c = '_' || c = '-')

/-- The `ValidIdentifier` newtype over the underlying string
(`twoliter/src/project/image.rs`). -/
structure ValidIdentifier where
  val : String
deriving DecidableEq, Repr

/-- Embeds `ValidIdentifier::from_str`: fails on the empty string, fails if
any character is not `is_valid_id_char`, otherwise wraps the input
unchanged.  The Rust loop reports the first offending character in its
error message; the error payload here is a fixed message, which the claims
do not inspect beyond "construction fails". -/
def ValidIdentifier.from_str (input : String) : Except String ValidIdentifier :=
  if input.isEmpty then
    .error "cannot define an identifier as an empty string"
  else if input.data.all is_valid_id_char then
    .ok ⟨input⟩
  else
    .error "invalid character found in identifier name"

/-- Embeds `impl AsRef<str> for ValidIdentifier`: returns the underlying
string unchanged. -/
def ValidIdentifier.as_ref (id : ValidIdentifier) : String :=
  id.val

/-- Embeds `impl Display for ValidIdentifier`: writes the underlying string
unchanged. -/
def ValidIdentifier.display (id : ValidIdentifier) : String :=
  id.val

/-! ## Vendors, images and project images (twoliter/src/project/image.rs) -/

/-- Modelled from the spec: the `ImageUri` type lives in `twoliter/src/docker`
(not among the provided sources); per §4.2 and the uses in `image.rs` it is a
registry/repository/tag triple, displayed as `registry/repo:tag`. -/
structure ImageUri where
  registry : Option String
  repo : String
  tag : String
deriving DecidableEq, Repr

/-- Modelled from the spec: the textual form of an `ImageUri`
(`registry/repo:tag`, registry omitted when absent). -/
def ImageUri.uri (u : ImageUri) : String :=
  match u.registry with
  | some r => r ++ "/" ++ u.repo ++ ":" ++ u.tag
  | none => u.repo ++ ":" ++ u.tag

/-- The `Vendor` struct from `twoliter/src/project/image.rs`: per the spec a
vendor is "a named source of artifacts, identified by a registry location". -/
structure Vendor where
  registry : String
deriving DecidableEq, Repr

/-- The `Image` struct from `twoliter/src/project/image.rs`: a
(name, version, vendor-name) triple.  Versions are semver in the source;
their only use in the embedded functions is as text in the tag, so they are
embedded as strings. -/
structure Image where
  name : ValidIdentifier
  version : String
  vendor : ValidIdentifier
deriving DecidableEq, Repr

/-- Modelled from the spec: the `Overridden` payload of `ArtifactVendor`
(defined in `twoliter/src/project`, not among the provided sources) records
both the original declared vendor and the different, locally-configured
vendor it is redirected to (§3 "Vendor", §4.2). -/
structure OverriddenVendor where
  original : Vendor
  vendor : Vendor
deriving DecidableEq, Repr

/-- Modelled from the spec: accessor for the remembered original vendor,
used by `ProjectImage::original_source_uri`. -/
def OverriddenVendor.original_vendor (o : OverriddenVendor) : Vendor :=
  o.original

/-- Modelled from the spec: `ArtifactVendor` has two variants, *Verbatim*
and *Overridden* (§3 "Vendor"). -/
inductive ArtifactVendor where
  | overridden (o : OverriddenVendor)
  | verbatim (v : Vendor)
deriving DecidableEq, Repr

/-- Modelled from the spec: the registry an `ArtifactVendor` points at —
the override vendor's registry when overridden, else the declared
vendor's (§4.2). -/
def ArtifactVendor.registry : ArtifactVendor → String
  | .overridden o => o.vendor.registry
  | .verbatim v => v.registry

/-- Modelled from the spec: "a deterministic repository-path derivation
from (name, version)" (§4.2); the derivation depends only on the image, not
on the vendor variant, and the version appears in the tag. -/
def ArtifactVendor.repo_for (_ : ArtifactVendor) (image : Image) : String :=
  image.name.val

/-- Modelled from the spec: the image URI a vendor yields for an image —
the vendor's registry, the derived repository path, and a `v`-prefixed
version tag (matching `ProjectImage::project_image_uri` in `image.rs`). -/
def ArtifactVendor.image_uri_for (av : ArtifactVendor) (image : Image) : ImageUri :=
  { registry := some av.registry
    repo := av.repo_for image
    tag := "v" ++ image.version }

/-- Whether the vendor is the Overridden variant. -/
def ArtifactVendor.isOverridden : ArtifactVendor → Bool
  | .overridden _ => true
  | .verbatim _ => false

/-- The `ProjectImage` struct from `twoliter/src/project/image.rs`: an
image paired with its resolved vendor. -/
structure ProjectImage where
  image : Image
  vendor : ArtifactVendor
deriving DecidableEq, Repr

/-- `ProjectImage::name`. -/
def ProjectImage.name (p : ProjectImage) : ValidIdentifier :=
  p.image.name

/-- `ProjectImage::version` (as the string used in formatting). -/
def ProjectImage.version (p : ProjectImage) : String :=
  p.image.version

/-- Embeds `ProjectImage::original_source_uri`: when overridden, rebuild a
Verbatim vendor from the remembered original and take its URI; when
verbatim, take the vendor's own URI. -/
def ProjectImage.original_source_uri (p : ProjectImage) : ImageUri :=
  match p.vendor with
  | .overridden o =>
      (ArtifactVendor.verbatim o.original_vendor).image_uri_for p.image
  | .verbatim _ => p.vendor.image_uri_for p.image

/-- Embeds `ProjectImage::project_image_uri`: the URI the build will
actually pull from, built from the resolved vendor's registry and derived
repository. -/
def ProjectImage.project_image_uri (p : ProjectImage) : ImageUri :=
  { registry := some p.vendor.registry
    repo := p.vendor.repo_for p.image
    tag := "v" ++ p.image.version }

/-- Embeds `impl Display for ProjectImage`: `name-version@original` with an
` (overridden-to: project)` suffix exactly when the vendor is overridden. -/
def ProjectImage.display (p : ProjectImage) : String :=
  match p.vendor with
  | .overridden _ =>
      p.name.val ++ "-" ++ p.version ++ "@" ++ p.original_source_uri.uri
        ++ " (overridden-to: " ++ p.project_image_uri.uri ++ ")"
  | .verbatim _ =>
      p.name.val ++ "-" ++ p.version ++ "@" ++ p.original_source_uri.uri

/-! ## The lookaside artifact cache (tools/buildsys/src/cache.rs) -/

/-- The `BundleModule` enum from the buildsys manifest: the only bundling
kind is Go-module vendoring. -/
inductive BundleModule where
  | go
deriving DecidableEq, Repr

/-- An external file descriptor from the package manifest: download URL,
declared checksum, and optional bundling post-processing.  Checksums and
file bytes are abstracted to natural numbers together with an explicit
digest function. -/
structure ExternalFileRec where
  url : String
  sha512 : Nat
  bundle_modules : Option (List BundleModule)
deriving DecidableEq, Repr

/-- A cache entry: file bytes plus a modification time. -/
structure CacheEntry where
  bytes : List Nat
  mtime : Nat
deriving DecidableEq, Repr

/-- The on-disk cache, keyed by the descriptor's URL. -/
abbrev CacheState : Type :=
  String → Option CacheEntry

/-- Persisting an entry under a key. -/
def cacheInsert (c : CacheState) (url : String) (e : CacheEntry) : CacheState :=
  fun u => if u = url then some e else c u

/-- Fetch failures surfaced by the cache: network failure, or a digest that
does not match the declared checksum (a distinct error kind carrying the
offending URL and the expected/actual checksums). -/
inductive FetchError where
  | networkFailure (url : String)
  | checksumMismatch (url : String) (expected : Nat) (actual : Nat)
deriving DecidableEq, Repr

/-- Modelled from the spec: `tools/buildsys/src/cache.rs` (the
`LookasideCache` fetch path) is not among the provided sources.  Per §4.1,
when no valid cached entry exists the file is downloaded from its URL; the
digest of the downloaded bytes is verified against the declared checksum
and a mismatch fails hard with the distinct checksum-mismatch error kind,
leaving the cache untouched; on success the entry is persisted with its
modification time clamped to `min(actual_mtime, manifest_mtime)`. -/
def fetch_download (hash : List Nat → Nat) (net : String → Option (List Nat))
    (now manifest_mtime : Nat) (cache : CacheState) (f : ExternalFileRec) :
    Except FetchError Unit × CacheState :=
  match net f.url with
  | none => (.error (.networkFailure f.url), cache)
  | some bytes =>
      if hash bytes = f.sha512 then
        (.ok (), cacheInsert cache f.url ⟨bytes, min now manifest_mtime⟩)
      else
        (.error (.checksumMismatch f.url f.sha512 (hash bytes)), cache)

/-- Modelled from the spec (§4.1, `cache.rs` not among the provided
sources): fetch of one external file descriptor.  If a cached entry whose
digest matches the declared checksum exists it is reused and its
modification time clamped to `min(actual_mtime, manifest_mtime)`; if the
entry is absent or its checksum mismatches, a fresh download is performed
(`fetch_download`).  `hash` is the digest function, `net` the bytes served
per URL, `now` the actual modification time a fresh write would get. -/
def fetch_file (hash : List Nat → Nat) (net : String → Option (List Nat))
    (now manifest_mtime : Nat) (cache : CacheState) (f : ExternalFileRec) :
    Except FetchError Unit × CacheState :=
  match cache f.url with
  | some e =>
      if hash e.bytes = f.sha512 then
        (.ok (), cacheInsert cache f.url ⟨e.bytes, min e.mtime manifest_mtime⟩)
      else
        fetch_download hash net now manifest_mtime cache f
  | none => fetch_download hash net now manifest_mtime cache f

/-! ## The buildsys orchestrator (tools/buildsys/src/main.rs) -/

/-- The `SupportedArch` enum from the buildsys manifest. -/
inductive SupportedArch where
  | x86_64
  | aarch64
deriving DecidableEq, Repr

/-- The architecture's textual form, as used in the warning diagnostic. -/
def SupportedArch.show : SupportedArch → String
  | .x86_64 => "x86_64"
  | .aarch64 => "aarch64"

/-- The slice of `ManifestInfo` the embedded orchestrator functions read:
the manifest name, the two deprecated variant-sensitivity keys (embedded as
`Option`s that are `some` exactly when the key is present), the declared
external files, source groups and supported architectures. -/
structure ManifestInfo where
  manifest_name : String
  package_name : String
  package_features : Option (List String)
  variant_sensitive : Option Bool
  external_files : Option (List ExternalFileRec)
  source_groups : Option (List String)
  supported_arches : Option (List SupportedArch)
deriving DecidableEq, Repr

/-- The buildsys error enum from `tools/buildsys/src/main.rs` (payloads
reduced to the fields the claims inspect). -/
inductive BuildsysError where
  | manifestParse (msg : String)
  | specParse (msg : String)
  | externalFileFetch (e : FetchError)
  | fileMetadata (path : String)
  | goMod (msg : String)
  | projectCrawl (msg : String)
  | buildAttempt (msg : String)
  | builderInstantiation (msg : String)
  | packageFeatures (name : String) (path : String)
  | variantSensitive (name : String) (path : String)
deriving DecidableEq, Repr

/-- Embeds `ensure_package_is_not_variant_sensitive`: errors on a present
`package-features` section first, then on a present `variant-sensitive`
key, naming the offending package and the manifest path. -/
def ensure_package_is_not_variant_sensitive (info : ManifestInfo)
    (manifest_path : String) : Except BuildsysError Unit :=
  if info.package_features.isSome then
    .error (.packageFeatures info.manifest_name manifest_path)
  else if info.variant_sensitive.isSome then
    .error (.variantSensitive info.manifest_name manifest_path)
  else
    .ok ()

/-- Embeds `check_arch_support`: when the manifest declares a supported
architecture set that does not contain the requested architecture, returns
the warning to print before the whole process exits with status 0;
otherwise returns `none` and the build proceeds. -/
def check_arch_support (supported_arches : Option (List SupportedArch))
    (arch : SupportedArch) : Option String :=
  match supported_arches with
  | some arches =>
      if arch ∈ arches then none
      else
        some (arch.show ++ " is not one of the supported architectures ("
          ++ String.intercalate ", " (arches.map SupportedArch.show) ++ ")")
  | none => none

/-- The observable outcome of one variant/repack build request:
whether `process::exit` was reached (and with which status), the warning
diagnostics printed, whether the sandbox executor (`DockerBuild::build`)
was invoked, and the returned result. -/
structure VariantRun where
  exitCode : Option Nat
  warnings : List String
  sandboxInvoked : Bool
  result : Except BuildsysError Unit
deriving Repr

/-- Embeds `build_variant`: manifest parse, architecture-support check
(warn and exit 0 when unsupported), the `cicd_hack` short-circuit, builder
instantiation and the sandboxed build.  Collaborator outcomes (`manifest`
parse, builder instantiation, build) are passed as explicit inputs. -/
def build_variant (manifest : Except String ManifestInfo)
    (arch : SupportedArch) (cicd_hack : Bool)
    (instantiate build_result : Except String Unit) : VariantRun :=
  match manifest with
  | .error e => ⟨none, [], false, .error (.manifestParse e)⟩
  | .ok info =>
      match check_arch_support info.supported_arches arch with
      | some warning => ⟨some 0, [warning], false, .ok ()⟩
      | none =>
          if cicd_hack then ⟨none, [], false, .ok ()⟩
          else
            match instantiate with
            | .error e => ⟨none, [], false, .error (.builderInstantiation e)⟩
            | .ok _ =>
                match build_result with
                | .ok _ => ⟨none, [], true, .ok ()⟩
                | .error e => ⟨none, [], true, .error (.buildAttempt e)⟩

/-- Embeds `repack_variant`: identical control flow to `build_variant`
(the source differs only in which rerun-if-changed lines it prints and in
calling `DockerBuild::repack_variant`). -/
def repack_variant (manifest : Except String ManifestInfo)
    (arch : SupportedArch) (cicd_hack : Bool)
    (instantiate build_result : Except String Unit) : VariantRun :=
  match manifest with
  | .error e => ⟨none, [], false, .error (.manifestParse e)⟩
  | .ok info =>
      match check_arch_support info.supported_arches arch with
      | some warning => ⟨some 0, [warning], false, .ok ()⟩
      | none =>
          if cicd_hack then ⟨none, [], false, .ok ()⟩
          else
            match instantiate with
            | .error e => ⟨none, [], false, .error (.builderInstantiation e)⟩
            | .ok _ =>
                match build_result with
                | .ok _ => ⟨none, [], true, .ok ()⟩
                | .error e => ⟨none, [], true, .error (.buildAttempt e)⟩

/-- The observable outcome of one `build_package` request: whether the
external-file fetch was attempted, whether the sandbox executor was
invoked, and the returned result. -/
structure PackageRun where
  fetchAttempted : Bool
  sandboxInvoked : Bool
  result : Except BuildsysError Unit
deriving Repr

/-- Embeds `build_package`: manifest parse, the deprecated-key check
(`ensure_package_is_not_variant_sensitive`), then — only when external
files are declared — manifest metadata read, lookaside-cache fetch and
Go-module bundling, then source-group crawl, spec parse, the `cicd_hack`
short-circuit, builder instantiation and the sandboxed build.
Collaborator outcomes are passed as explicit inputs. -/
def build_package (manifest : Except String ManifestInfo)
    (manifest_path : String) (metadata : Except String Nat)
    (fetch : Except FetchError Unit) (gomod : Except String Unit)
    (crawl : Except String (List String))
    (spec_parse : Except String (List String × List String))
    (cicd_hack : Bool) (instantiate build_result : Except String Unit) :
    PackageRun :=
  match manifest with
  | .error e => ⟨false, false, .error (.manifestParse e)⟩
  | .ok info =>
      match ensure_package_is_not_variant_sensitive info manifest_path with
      | .error e => ⟨false, false, .error e⟩
      | .ok _ =>
          let cont : Bool → PackageRun := fun fetched =>
            match (if info.source_groups.isSome then crawl else .ok []) with
            | .error e => ⟨fetched, false, .error (.projectCrawl e)⟩
            | .ok _ =>
                match spec_parse with
                | .error e => ⟨fetched, false, .error (.specParse e)⟩
                | .ok _ =>
                    if cicd_hack then ⟨fetched, false, .ok ()⟩
                    else
                      match instantiate with
                      | .error e =>
                          ⟨fetched, false, .error (.builderInstantiation e)⟩
                      | .ok _ =>
                          match build_result with
                          | .ok _ => ⟨fetched, true, .ok ()⟩
                          | .error e => ⟨fetched, true, .error (.buildAttempt e)⟩
          match info.external_files with
          | none => cont false
          | some files =>
              match metadata with
              | .error _ => ⟨false, false, .error (.fileMetadata manifest_path)⟩
              | .ok _ =>
                  match fetch with
                  | .error e => ⟨true, false, .error (.externalFileFetch e)⟩
                  | .ok _ =>
                      if files.any (fun f => f.bundle_modules.isSome) then
                        match gomod with
                        | .error e => ⟨true, false, .error (.goMod e)⟩
                        | .ok _ => cont true
                      else cont true

/-! ## Image-tool backend selection (tools/oci-cli-wrapper/src/lib.rs) -/

/-- The two interchangeable image-tool backends, each holding the resolved
executable path: the container-daemon client (`DockerCLI`) and the direct
registry client (`CraneCLI`, shared by crane/gcrane/krane). -/
inductive ImageToolBackend where
  | dockerCLI (path : String)
  | craneCLI (path : String)
deriving DecidableEq, Repr

/-- The selection-relevant errors from the oci-cli-wrapper error enum. -/
inductive ImageToolError where
  | notFound (name : String)
  | unsupported (name : String)
  | noneFound
deriving DecidableEq, Repr

/-- Embeds `image_tool` from `tools/oci-cli-wrapper/src/lib.rs`.  The
environment snapshot is explicit: `envOverride` is the value of
`TWOLITER_KIT_IMAGE_TOOL` (when set) and `which` resolves an executable
name to its path (when installed).  With the override set, "docker" picks
the daemon backend, "crane"/"gcrane"/"krane" pick the direct client, and
any other name is an unsupported-tool error; with no override, the direct
client is probed as `which("krane").or(which("gcrane")).or(which("crane"))`
and the daemon backend is the fallback. -/
def image_tool (envOverride : Option String) (which : String → Option String) :
    Except ImageToolError ImageToolBackend :=
  match envOverride with
  | some name =>
      if name = "docker" then
        match which "docker" with
        | some p => .ok (.dockerCLI p)
        | none => .error (.notFound "docker")
      else if name = "crane" ∨ name = "gcrane" ∨ name = "krane" then
        match which name with
        | some p => .ok (.craneCLI p)
        | none => .error (.notFound name)
      else
        .error (.unsupported name)
  | none =>
      match ((which "krane").or (which "gcrane")).or (which "crane") with
      | some p => .ok (.craneCLI p)
      | none =>
          match which "docker" with
          | some p => .ok (.dockerCLI p)
          | none => .error .noneFound

/-- The backend-selection rule as the specification words it: an
environment override naming "docker" selects the daemon backend and one
naming a crane-family tool selects the direct client (any other name is
unsupported); with no override the tools are probed one by one in the
fixed priority order krane, gcrane, crane, and the docker daemon backend
is selected only when none of the three direct-client executables is
available. -/
def image_tool_selection_rule (envOverride : Option String)
    (which : String → Option String) : Except ImageToolError ImageToolBackend :=
  match envOverride with
  | some name =>
      if name = "docker" then
        match which "docker" with
        | some p => .ok (.dockerCLI p)
        | none => .error (.notFound "docker")
      else if name ∈ ["crane", "gcrane", "krane"] then
        match which name with
        | some p => .ok (.craneCLI p)
        | none => .error (.notFound name)
      else
        .error (.unsupported name)
  | none =>
      match which "krane" with
      | some p => .ok (.craneCLI p)
      | none =>
          match which "gcrane" with
          | some p => .ok (.craneCLI p)
          | none =>
              match which "crane" with
              | some p => .ok (.craneCLI p)
              | none =>
                  match which "docker" with
                  | some p => .ok (.dockerCLI p)
                  | none => .error .noneFound

/-! ## The interrupt-safe cleanup registry (twoliter/src/cleanup.rs) -/

/-- Embeds `TempfileJanitor::try_cleanup`: pop the registered entries one
by one and delete each file; a failed deletion (`fails` tells which paths'
removal fails) is logged and the sweep continues with the remaining
entries.  Returns the table after the sweep and the logged failures.  The
`BTreeMap<Uuid, TempPath>` is embedded as an association list whose head
is the first entry popped. -/
def try_cleanup (fails : String → Bool) :
    List (Nat × String) → List (Nat × String) × List String
  | [] => ([], [])
  | (_, p) :: rest =>
      let r := try_cleanup fails rest
      (r.1, (if fails p then [p] else []) ++ r.2)

/-- The observable state of the signal-handling path: the atomic
`already_handling` flag, the janitor's path table, how many times the
cleanup sweep has run, the logged deletion failures, and the exit status
once `process::exit` has been reached. -/
structure HandlerState where
  alreadyHandling : Bool
  paths : List (Nat × String)
  cleanupRuns : Nat
  logged : List String
  exited : Option Nat
deriving DecidableEq, Repr

/-- Embeds the closure installed by
`TempfileJanitor::setup_signal_handler`: once the process has exited
nothing further happens; otherwise the handler runs the cleanup sweep only
if it wins the compare-exchange on the atomic flag, and in every case ends
with `process::exit(130)`. -/
def signal_handler (fails : String → Bool) (s : HandlerState) : HandlerState :=
  if s.exited.isSome then s
  else if s.alreadyHandling then
    { s with exited := some 130 }
  else
    let r := try_cleanup fails s.paths
    { alreadyHandling := true
      paths := r.1
      cleanupRuns := s.cleanupRuns + 1
      logged := s.logged ++ r.2
      exited := some 130 }

/-- Delivery of `n` termination signals, each running the installed
handler; concurrent arrivals are modelled by their linearization through
the atomic compare-exchange. -/
def deliver_signals (fails : String → Bool) (n : Nat) (s : HandlerState) :
    HandlerState :=
  match n with
  | 0 => s
  | k + 1 => deliver_signals fails k (signal_handler fails s)

/-- Embeds `TempfileJanitor::with_tempfile`: insert the tempfile path into
the registry under a fresh random id, run the body with the path, remove
that registration, and wrap the body's output in `Ok`.  Returns the
result together with the registry as seen while the body runs and the
registry after release. -/
def with_tempfile {R : Type} (paths : List (Nat × String)) (path_id : Nat)
    (tmpfile : String) (do_ : String → R) :
    Except String R × List (Nat × String) × List (Nat × String) :=
  let registered := (path_id, tmpfile) :: paths
  let result := do_ tmpfile
  let remaining := registered.eraseP (fun kv => kv.1 == path_id)
  (.ok result, registered, remaining)

end Twoliter

namespace Twoliter

/-! ## C6 -/

/-- C6: constructing a `ValidIdentifier` succeeds iff the input is
non-empty and every character is ASCII alphanumeric, underscore or hyphen;
and on success both text representations (`Display` and `as_ref`) return
exactly the input string. -/
theorem validIdentifier_from_str_characterization (s : String) :
    ((ValidIdentifier.from_str s).isOk ↔
      (s ≠ "" ∧ ∀ c ∈ s.data, is_valid_id_char c)) ∧
    (∀ id, ValidIdentifier.from_str s = .ok id →
      id.display = s ∧ id.as_ref = s) := by
  constructor
  · unfold ValidIdentifier.from_str
    by_cases hemp : s.isEmpty
    · simp only [hemp, if_true]
      constructor
      · intro h; cases h
      · intro ⟨hne, _⟩
        exact absurd ((String.isEmpty_iff s).mp hemp) hne
    · simp only [hemp, if_false]
      by_cases hall : s.data.all is_valid_id_char
      · simp only [hall, if_true]
        constructor
        · intro _
          refine ⟨fun h => hemp ((String.isEmpty_iff s).mpr h), ?_⟩
          intro c hc
          exact List.all_eq_true.mp hall c hc
        · intro _; rfl
      · simp only [hall, if_false]
        constructor
        · intro h; cases h
        · intro ⟨_, hvalid⟩
          exact absurd (List.all_eq_true.mpr hvalid) hall
  · intro id h
    unfold ValidIdentifier.from_str at h
    by_cases hemp : s.isEmpty
    · simp [hemp] at h
    · by_cases hall : s.data.all is_valid_id_char
      · simp only [hemp, if_false, hall, if_true] at h
        cases h
        exact ⟨rfl, rfl⟩
      · simp [hemp, hall] at h

/-- Witness for C6 at the concrete identifier "kit-name_01". -/
theorem validIdentifier_from_str_characterization_witness :
    (ValidIdentifier.from_str "kit-name_01").isOk ∧
      (ValidIdentifier.mk "kit-name_01").display = "kit-name_01" := by
  have h := validIdentifier_from_str_characterization "kit-name_01"
  exact ⟨h.1.mpr ⟨by decide, by decide⟩, (h.2 ⟨"kit-name_01"⟩ (by rfl)).1⟩

/-! ## C3 -/

/-- C3: when a declared vendor A is overridden to vendor B (a different
vendor, per §3 an override redirects to a *different* locally-configured
vendor, and vendors are identified by their registry), the project image
URI carries B's registry while the original source URI carries A's; and
the two URIs coincide exactly when the vendor is Verbatim. -/
theorem projectImage_uri_override_audit (p : ProjectImage)
    (hdiff : ∀ o, p.vendor = .overridden o → o.vendor ≠ o.original) :
    (∀ o, p.vendor = .overridden o →
      p.project_image_uri.registry = some o.vendor.registry ∧
      p.original_source_uri.registry = some o.original.registry) ∧
    (p.project_image_uri = p.original_source_uri ↔
      ∃ v, p.vendor = .verbatim v) := by
  obtain ⟨img, av⟩ := p
  cases av with
  | verbatim v =>
    constructor
    · intro o h
      cases h
    · constructor
      · intro _
        exact ⟨v, rfl⟩
      · intro _
        rfl
  | overridden o =>
    constructor
    · intro o' h
      cases h
      exact ⟨rfl, rfl⟩
    · constructor
      · intro h
        exfalso
        apply hdiff o rfl
        have hreg : o.vendor.registry = o.original.registry :=
          Option.some.inj (congrArg ImageUri.registry h)
        exact congrArg Vendor.mk hreg
      · rintro ⟨v, hv⟩
        cases hv

/-- Witness for C3: image "kit" version "1.0.0", vendor registry
`registry-a.example` overridden to `registry-b.example`. -/
theorem projectImage_uri_override_audit_witness :
    (ProjectImage.mk ⟨⟨"kit"⟩, "1.0.0", ⟨"alpha"⟩⟩
        (.overridden ⟨⟨"registry-a.example"⟩, ⟨"registry-b.example"⟩⟩)).project_image_uri.registry
        = some "registry-b.example" ∧
    (ProjectImage.mk ⟨⟨"kit"⟩, "1.0.0", ⟨"alpha"⟩⟩
        (.overridden ⟨⟨"registry-a.example"⟩, ⟨"registry-b.example"⟩⟩)).original_source_uri.registry
        = some "registry-a.example" ∧
    (ProjectImage.mk ⟨⟨"kit"⟩, "1.0.0", ⟨"alpha"⟩⟩
        (.overridden ⟨⟨"registry-a.example"⟩, ⟨"registry-b.example"⟩⟩)).project_image_uri
      ≠ (ProjectImage.mk ⟨⟨"kit"⟩, "1.0.0", ⟨"alpha"⟩⟩
        (.overridden ⟨⟨"registry-a.example"⟩, ⟨"registry-b.example"⟩⟩)).original_source_uri := by
  have h := projectImage_uri_override_audit
    (ProjectImage.mk ⟨⟨"kit"⟩, "1.0.0", ⟨"alpha"⟩⟩
      (.overridden ⟨⟨"registry-a.example"⟩, ⟨"registry-b.example"⟩⟩))
    (fun o ho => by cases ho; decide)
  refine ⟨(h.1 _ rfl).1, (h.1 _ rfl).2, fun hc => ?_⟩
  obtain ⟨v, hv⟩ := h.2.mp hc
  cases hv

/-! ## C2 -/

/-- C2: a variant or repack-variant build whose manifest declares a
supported-architecture set not containing the requested architecture emits
a warning diagnostic and exits the whole process with status 0, without
ever invoking the sandbox executor, and without reporting an error. -/
theorem variant_unsupported_arch_exits_zero
    (info : ManifestInfo) (arch : SupportedArch) (arches : List SupportedArch)
    (cicd_hack : Bool) (instantiate build_result : Except String Unit)
    (hsup : info.supported_arches = some arches) (hnot : arch ∉ arches) :
    ∃ w, check_arch_support info.supported_arches arch = some w ∧
      build_variant (.ok info) arch cicd_hack instantiate build_result =
        ⟨some 0, [w], false, .ok ()⟩ ∧
      repack_variant (.ok info) arch cicd_hack instantiate build_result =
        ⟨some 0, [w], false, .ok ()⟩ := by
  have hcheck : check_arch_support info.supported_arches arch =
      some (arch.show ++ " is not one of the supported architectures ("
        ++ String.intercalate ", " (arches.map SupportedArch.show) ++ ")") := by
    rw [hsup]
    simp [check_arch_support, hnot]
  exact ⟨_, hcheck, by simp [build_variant, hcheck], by simp [repack_variant, hcheck]⟩

/-- Witness for C2: the spec scenario — variant build requested for
aarch64 while the manifest supports only x86_64. -/
theorem variant_unsupported_arch_exits_zero_witness :
    (build_variant (.ok ⟨"aws-dev", "aws-dev", none, none, none, none,
        some [SupportedArch.x86_64]⟩) SupportedArch.aarch64 false
        (.ok ()) (.ok ())).exitCode = some 0 ∧
    (build_variant (.ok ⟨"aws-dev", "aws-dev", none, none, none, none,
        some [SupportedArch.x86_64]⟩) SupportedArch.aarch64 false
        (.ok ()) (.ok ())).sandboxInvoked = false ∧
    (build_variant (.ok ⟨"aws-dev", "aws-dev", none, none, none, none,
        some [SupportedArch.x86_64]⟩) SupportedArch.aarch64 false
        (.ok ()) (.ok ())).warnings ≠ [] := by
  obtain ⟨w, hw, hb, hr⟩ := variant_unsupported_arch_exits_zero
    ⟨"aws-dev", "aws-dev", none, none, none, none, some [SupportedArch.x86_64]⟩
    SupportedArch.aarch64 [SupportedArch.x86_64] false (.ok ()) (.ok ())
    rfl (by decide)
  rw [hb]
  exact ⟨rfl, rfl, by simp⟩

/-! ## C5 -/

/-- C5: a build-package request whose manifest contains either deprecated
variant-sensitivity key fails with the error naming the offending package
and the manifest path, before the external-file fetch is attempted and
before the sandbox executor is invoked. -/
theorem build_package_rejects_deprecated_keys
    (info : ManifestInfo) (manifest_path : String) (metadata : Except String Nat)
    (fetch : Except FetchError Unit) (gomod : Except String Unit)
    (crawl : Except String (List String))
    (spec_parse : Except String (List String × List String))
    (cicd_hack : Bool) (instantiate build_result : Except String Unit)
    (h : info.package_features.isSome ∨ info.variant_sensitive.isSome) :
    build_package (.ok info) manifest_path metadata fetch gomod crawl spec_parse
        cicd_hack instantiate build_result =
      ⟨false, false,
        .error (if info.package_features.isSome then
            .packageFeatures info.manifest_name manifest_path
          else
            .variantSensitive info.manifest_name manifest_path)⟩ := by
  by_cases hpf : info.package_features.isSome
  · simp [build_package, ensure_package_is_not_variant_sensitive, hpf]
  · have hvs : info.variant_sensitive.isSome = true := by
      rcases h with h | h
      · exact absurd h hpf
      · exact h
    simp [build_package, ensure_package_is_not_variant_sensitive, hpf, hvs]

/-- Witness for C5: the spec scenario — a manifest carrying the deprecated
`variant-sensitive` key; the run fails naming package and path, with no
fetch and no sandbox invocation. -/
theorem build_package_rejects_deprecated_keys_witness :
    build_package (.ok ⟨"libfoo", "libfoo", none, some true, none, none, none⟩)
        "packages/libfoo/Cargo.toml" (.ok 0) (.ok ()) (.ok ()) (.ok [])
        (.ok ([], [])) false (.ok ()) (.ok ()) =
      ⟨false, false,
        .error (.variantSensitive "libfoo" "packages/libfoo/Cargo.toml")⟩ := by
  have h := build_package_rejects_deprecated_keys
    ⟨"libfoo", "libfoo", none, some true, none, none, none⟩
    "packages/libfoo/Cargo.toml" (.ok 0) (.ok ()) (.ok ()) (.ok [])
    (.ok ([], [])) false (.ok ()) (.ok ()) (Or.inr (by decide))
  simpa using h

/-! ## C1 -/

/-- C1: a fetch of an external file descriptor whose downloaded bytes have
a digest different from the declared checksum fails with the distinct
checksum-mismatch error (carrying URL, expected and actual digests), and
the cache is left unchanged — in particular no reusable (checksum-valid)
cache entry exists for the descriptor afterwards. -/
theorem fetch_checksum_mismatch_fails_without_cache_entry
    (hash : List Nat → Nat) (net : String → Option (List Nat))
    (now manifest_mtime : Nat) (cache : CacheState) (f : ExternalFileRec)
    (bytes : List Nat)
    (hmiss : ∀ e, cache f.url = some e → ¬hash e.bytes = f.sha512)
    (hnet : net f.url = some bytes) (hbad : ¬hash bytes = f.sha512) :
    fetch_file hash net now manifest_mtime cache f =
      (.error (.checksumMismatch f.url f.sha512 (hash bytes)), cache) ∧
    ∀ e, (fetch_file hash net now manifest_mtime cache f).2 f.url = some e →
      ¬hash e.bytes = f.sha512 := by
  have hdl : fetch_download hash net now manifest_mtime cache f =
      (.error (.checksumMismatch f.url f.sha512 (hash bytes)), cache) := by
    simp [fetch_download, hnet, hbad]
  have hmain : fetch_file hash net now manifest_mtime cache f =
      (.error (.checksumMismatch f.url f.sha512 (hash bytes)), cache) := by
    unfold fetch_file
    cases hc : cache f.url with
    | none => exact hdl
    | some e => simp [hmiss e hc, hdl]
  refine ⟨hmain, ?_⟩
  intro e he
  rw [hmain] at he
  exact hmiss e he

/-- Witness for C1: an empty cache, a descriptor declaring checksum 6, and
a source serving bytes whose digest is 7. -/
theorem fetch_checksum_mismatch_fails_without_cache_entry_witness :
    fetch_file (fun l => l.foldl (· + ·) 0) (fun _ => some [1, 2, 4]) 50 10
        (fun _ => none) ⟨"https://example.com/pkg-1.0.tar.gz", 6, none⟩ =
      (.error (.checksumMismatch "https://example.com/pkg-1.0.tar.gz" 6 7),
        fun _ => none) := by
  have h := fetch_checksum_mismatch_fails_without_cache_entry
    (fun l => l.foldl (· + ·) 0) (fun _ => some [1, 2, 4]) 50 10
    (fun _ => none) ⟨"https://example.com/pkg-1.0.tar.gz", 6, none⟩ [1, 2, 4]
    (fun e he => by cases he) rfl (by decide)
  exact h.1

/-! ## Cache helper lemmas -/

/-- Re-inserting the entry a key already holds leaves the cache unchanged. -/
theorem cacheInsert_self (c : CacheState) (url : String) (e : CacheEntry)
    (h : c url = some e) : cacheInsert c url e = c := by
  funext u
  unfold cacheInsert
  by_cases hu : u = url
  · subst hu
    rw [if_pos rfl, h]
  · rw [if_neg hu]

/-- After a successful download the descriptor's cache entry is
checksum-valid and its mtime is clamped to the manifest's. -/
theorem fetch_download_success_entry
    (hash : List Nat → Nat) (net : String → Option (List Nat))
    (now m : Nat) (cache : CacheState) (f : ExternalFileRec)
    (hok : (fetch_download hash net now m cache f).1 = .ok ()) :
    ∃ e, (fetch_download hash net now m cache f).2 f.url = some e ∧
      hash e.bytes = f.sha512 ∧ e.mtime ≤ m := by
  unfold fetch_download at hok ⊢
  cases hn : net f.url with
  | none => simp [hn] at hok
  | some bytes =>
    by_cases hb : hash bytes = f.sha512
    · refine ⟨⟨bytes, min now m⟩, ?_, hb, Nat.min_le_right _ _⟩
      simp [hn, hb, cacheInsert]
    · simp [hn, hb] at hok

/-- After any successful fetch the descriptor's cache entry is
checksum-valid and its mtime is clamped to the manifest's. -/
theorem fetch_file_success_entry
    (hash : List Nat → Nat) (net : String → Option (List Nat))
    (now m : Nat) (cache : CacheState) (f : ExternalFileRec)
    (hok : (fetch_file hash net now m cache f).1 = .ok ()) :
    ∃ e, (fetch_file hash net now m cache f).2 f.url = some e ∧
      hash e.bytes = f.sha512 ∧ e.mtime ≤ m := by
  unfold fetch_file at hok ⊢
  cases hc : cache f.url with
  | none =>
    rw [hc] at hok
    exact fetch_download_success_entry hash net now m cache f hok
  | some e0 =>
    rw [hc] at hok
    by_cases hv : hash e0.bytes = f.sha512
    · refine ⟨⟨e0.bytes, min e0.mtime m⟩, ?_, hv, Nat.min_le_right _ _⟩
      simp [hv, cacheInsert]
    · simp only [hv, if_false] at hok ⊢
      exact fetch_download_success_entry hash net now m cache f hok

/-- Fetching a descriptor whose cache entry is already checksum-valid with
an mtime at or below the manifest's reuses the entry and changes nothing:
neither the entry nor its reported mtime moves. -/
theorem fetch_file_reuse_fixpoint
    (hash : List Nat → Nat) (net2 : String → Option (List Nat))
    (now2 m : Nat) (c2 : CacheState) (f : ExternalFileRec) (e : CacheEntry)
    (he : c2 f.url = some e) (hv : hash e.bytes = f.sha512)
    (hm : e.mtime ≤ m) :
    fetch_file hash net2 now2 m c2 f = (.ok (), c2) := by
  obtain ⟨b, mt⟩ := e
  unfold fetch_file
  rw [he]
  have hmin : min mt m = mt := min_eq_left hm
  simp only [hv, if_true, hmin]
  rw [cacheInsert_self c2 f.url ⟨b, mt⟩ he]

/-! ## C7 -/

/-- C7: after a successful fetch the entry recorded for the descriptor has
a modification time clamped to at most the manifest's modification time;
and any repeated fetch with the same manifest mtime (any network state,
any later wall-clock mtime) succeeds by reuse and leaves the cache — in
particular the reported mtime — completely unchanged. -/
theorem fetch_mtime_clamped_and_idempotent
    (hash : List Nat → Nat) (net : String → Option (List Nat))
    (now manifest_mtime : Nat) (cache : CacheState) (f : ExternalFileRec)
    (hok : (fetch_file hash net now manifest_mtime cache f).1 = .ok ()) :
    (∃ e, (fetch_file hash net now manifest_mtime cache f).2 f.url = some e ∧
       e.mtime ≤ manifest_mtime) ∧
    (∀ net2 now2,
      fetch_file hash net2 now2 manifest_mtime
          ((fetch_file hash net now manifest_mtime cache f).2) f =
        (.ok (), (fetch_file hash net now manifest_mtime cache f).2)) := by
  obtain ⟨e, he, hv, hm⟩ :=
    fetch_file_success_entry hash net now manifest_mtime cache f hok
  exact ⟨⟨e, he, hm⟩, fun net2 now2 =>
    fetch_file_reuse_fixpoint hash net2 now2 manifest_mtime _ f e he hv hm⟩

/-- Witness for C7: a fresh fetch into an empty cache with manifest mtime
10 and wall-clock mtime 50; the recorded mtime is clamped to 10. -/
theorem fetch_mtime_clamped_and_idempotent_witness :
    ∃ e, (fetch_file (fun l => l.foldl (· + ·) 0) (fun _ => some [1, 2, 4])
        50 10 (fun _ => none)
        ⟨"https://example.com/pkg-1.0.tar.gz", 7, none⟩).2
          "https://example.com/pkg-1.0.tar.gz" = some e ∧ e.mtime ≤ 10 := by
  have h := fetch_mtime_clamped_and_idempotent (fun l => l.foldl (· + ·) 0)
    (fun _ => some [1, 2, 4]) 50 10 (fun _ => none)
    ⟨"https://example.com/pkg-1.0.tar.gz", 7, none⟩ rfl
  exact h.1

/-! ## C9 -/

/-- C9: `Display` for a `ProjectImage` shows both the original source URI
and the project image URI (after " (overridden-to: ") exactly when the
vendor is Overridden, and shows only the original source URI when the
vendor is Verbatim. -/
theorem projectImage_display_audit (p : ProjectImage) :
    p.display =
      if p.vendor.isOverridden then
        p.name.val ++ "-" ++ p.version ++ "@" ++ p.original_source_uri.uri
          ++ " (overridden-to: " ++ p.project_image_uri.uri ++ ")"
      else
        p.name.val ++ "-" ++ p.version ++ "@" ++ p.original_source_uri.uri := by
  obtain ⟨img, av⟩ := p
  cases av <;> rfl

/-! ## C8 -/

/-- C8: backend selection is deterministic given the environment snapshot
and follows the spec's rule exactly — override "docker" selects the daemon
backend, a crane-family override selects the direct client, any other
override name fails as unsupported; with no override krane, gcrane, crane
are probed in that fixed order and the daemon backend is only the
fallback. -/
theorem image_tool_selection_deterministic (envOverride : Option String)
    (which : String → Option String) :
    image_tool envOverride which = image_tool_selection_rule envOverride which := by
  cases envOverride with
  | some name =>
    by_cases h1 : name = "docker"
    · simp [image_tool, image_tool_selection_rule, h1]
    · by_cases h2 : name = "crane" ∨ name = "gcrane" ∨ name = "krane"
      · simp [image_tool, image_tool_selection_rule, h1, h2]
      · simp [image_tool, image_tool_selection_rule, h1, h2]
  | none =>
    cases hk : which "krane" <;> cases hg : which "gcrane" <;>
      cases hc : which "crane" <;>
      simp [image_tool, image_tool_selection_rule, hk, hg, hc, Option.or]

/-! ## C4 -/

/-- The sweep empties the whole path table no matter which deletions fail,
and logs exactly the failing paths. -/
theorem try_cleanup_sweeps_all (fails : String → Bool)
    (l : List (Nat × String)) :
    (try_cleanup fails l).1 = [] ∧
    (try_cleanup fails l).2 = (l.map Prod.snd).filter fails := by
  induction l with
  | nil => exact ⟨rfl, rfl⟩
  | cons kv rest ih =>
    obtain ⟨k, p⟩ := kv
    constructor
    · simpa [try_cleanup] using ih.1
    · by_cases hp : fails p <;> simp [try_cleanup, hp, ih.2]

/-- Once the process has exited, later signal deliveries change nothing. -/
theorem deliver_signals_exited (fails : String → Bool) (k : Nat)
    (s : HandlerState) (h : s.exited.isSome) :
    deliver_signals fails k s = s := by
  induction k with
  | zero => rfl
  | succ k ih =>
    have hh : signal_handler fails s = s := by
      unfold signal_handler
      rw [if_pos h]
    calc deliver_signals fails (k + 1) s
        = deliver_signals fails k (signal_handler fails s) := rfl
      _ = deliver_signals fails k s := by rw [hh]
      _ = s := ih

/-- C4: when one or more termination signals arrive, the cleanup sweep
over the registered temporary paths runs exactly once (the atomic flag
gates re-entry); individual deletion failures are logged and stop neither
the sweep of the remaining entries nor termination; and the process ends
with the conventional interrupted exit status 130. -/
theorem cleanup_sweep_once_logs_and_exits_130 (fails : String → Bool)
    (paths : List (Nat × String)) (n : Nat) (h : 1 ≤ n) :
    (deliver_signals fails n ⟨false, paths, 0, [], none⟩).cleanupRuns = 1 ∧
    (deliver_signals fails n ⟨false, paths, 0, [], none⟩).paths = [] ∧
    (deliver_signals fails n ⟨false, paths, 0, [], none⟩).logged =
      (paths.map Prod.snd).filter fails ∧
    (deliver_signals fails n ⟨false, paths, 0, [], none⟩).exited = some 130 := by
  obtain ⟨k, rfl⟩ : ∃ k, n = k + 1 := ⟨n - 1, (Nat.succ_pred_eq_of_pos h).symm⟩
  have h1 : signal_handler fails ⟨false, paths, 0, [], none⟩ =
      ⟨true, (try_cleanup fails paths).1, 1, (try_cleanup fails paths).2,
        some 130⟩ := by
    simp [signal_handler]
  have h2 : deliver_signals fails (k + 1) ⟨false, paths, 0, [], none⟩ =
      ⟨true, (try_cleanup fails paths).1, 1, (try_cleanup fails paths).2,
        some 130⟩ := by
    calc deliver_signals fails (k + 1) ⟨false, paths, 0, [], none⟩
        = deliver_signals fails k
            (signal_handler fails ⟨false, paths, 0, [], none⟩) := rfl
      _ = _ := by
            rw [h1]
            exact deliver_signals_exited fails k _ rfl
  rw [h2]
  exact ⟨rfl, (try_cleanup_sweeps_all fails paths).1,
    (try_cleanup_sweeps_all fails paths).2, rfl⟩

/-- Witness for C4: three signals arrive with two registered tempfiles,
one of which fails to delete; the sweep runs once, the table is emptied,
and the process exits with status 130. -/
theorem cleanup_sweep_once_logs_and_exits_130_witness :
    (deliver_signals (fun p => p == "b.tmp") 3
        ⟨false, [(1, "a.tmp"), (2, "b.tmp")], 0, [], none⟩).cleanupRuns = 1 ∧
    (deliver_signals (fun p => p == "b.tmp") 3
        ⟨false, [(1, "a.tmp"), (2, "b.tmp")], 0, [], none⟩).paths = [] ∧
    (deliver_signals (fun p => p == "b.tmp") 3
        ⟨false, [(1, "a.tmp"), (2, "b.tmp")], 0, [], none⟩).exited =
      some 130 := by
  have h := cleanup_sweep_once_logs_and_exits_130 (fun p => p == "b.tmp")
    [(1, "a.tmp"), (2, "b.tmp")] 3 (by decide)
  exact ⟨h.1, h.2.1, h.2.2.2⟩

/-! ## C10 -/

/-- C10: `with_tempfile` registers the path (under its fresh random id)
in the registry seen by the body, always returns `Ok` wrapping the body's
output — even when that output is itself an error — and afterwards removes
exactly its own registration, leaving the registry as it was. -/
theorem with_tempfile_registers_and_releases {R : Type}
    (paths : List (Nat × String)) (path_id : Nat) (tmpfile : String)
    (do_ : String → R) (hfresh : paths.lookup path_id = none) :
    (with_tempfile paths path_id tmpfile do_).1 = .ok (do_ tmpfile) ∧
    ((with_tempfile paths path_id tmpfile do_).2.1).lookup path_id =
      some tmpfile ∧
    (with_tempfile paths path_id tmpfile do_).2.2 = paths ∧
    ((with_tempfile paths path_id tmpfile do_).2.2).lookup path_id = none := by
  have hrel : (with_tempfile paths path_id tmpfile do_).2.2 = paths := by
    show ((path_id, tmpfile) :: paths).eraseP (fun kv => kv.1 == path_id) = paths
    exact List.eraseP_cons_of_pos (by simp)
  refine ⟨rfl, ?_, hrel, ?_⟩
  · show List.lookup path_id ((path_id, tmpfile) :: paths) = some tmpfile
    simp [List.lookup]
  · rw [hrel]
    exact hfresh

/-- Witness for C10: a body that itself returns an error; the helper still
returns `Ok` around it and the pre-existing registration survives. -/
theorem with_tempfile_registers_and_releases_witness :
    (with_tempfile [(5, "keep.txt")] 9 "scratch.txt"
        (fun _ => (Except.error "boom" : Except String Nat))).1 =
      .ok (.error "boom") ∧
    (with_tempfile [(5, "keep.txt")] 9 "scratch.txt"
        (fun _ => (Except.error "boom" : Except String Nat))).2.2 =
      [(5, "keep.txt")] := by
  have h := with_tempfile_registers_and_releases [(5, "keep.txt")] 9
    "scratch.txt" (fun _ => (Except.error "boom" : Except String Nat))
    (by decide)
  exact ⟨h.1, h.2.2.1⟩

end Twoliter
